import Mathlib

/-
Verification of the MAST name-resolution client found in
notebooks/MAST/PanSTARRS/PS1_DR2_TAP/PS1_DR2_TAP.ipynb.

The notebook defines two Python functions:

  mastQuery(request): serializes a request dictionary with json.dumps,
  URL-encodes it with urllib.parse.quote, opens an HTTPS connection to
  mast.stsci.edu, POSTs to /api/v0/invoke with fixed headers, reads and
  UTF-8-decodes the response, closes the connection and returns the HTTP
  headers together with the body.

  resolve(name): builds the Mast.Name.Lookup request for the given name,
  calls mastQuery, parses the body with json.loads, and returns
  (obj[resolvedCoordinate][0][ra], obj[resolvedCoordinate][0][decl]);
  an IndexError raised by the subscripts is converted into
  ValueError("Unknown object ...") carrying the name, while every other
  exception propagates unchanged.

The development below embeds these functions shallowly.  JSON numbers are
modelled exactly as rationals (the notebook never does arithmetic on them;
the claims only move them around unchanged).  The remote service is an
explicit oracle mapping the fully built HTTP request to an outcome, and the
network side effects are recorded as an explicit event trace so that the
claims about connection lifetime and about the single POST per call can be
stated.
-/

set_option autoImplicit false

namespace Mast

/-- A JSON value as produced by the json module: null, booleans, numbers,
strings, arrays, and objects (ordered field lists, as Python dicts preserve
insertion order).  Numbers are modelled exactly as rationals; the values the
claims touch (150.0, 65.0, 400.0) are exactly representable. -/
inductive JValue where
  | jnull
  | jbool (b : Bool)
  | jnum (q : ℚ)
  | jstr (s : String)
  | jarr (elems : List JValue)
  | jobj (members : List (String × JValue))

/-- Errors a Python execution of the notebook code can raise, plus the
transport-level failures of the HTTP exchange.  valueError is what
resolve raises for an unknown object; keyError / indexError / typeError
are the subscript failures; jsonDecodeError is a json.loads failure and
unicodeDecodeError a bytes.decode failure. -/
inductive PyError where
  | keyError (key : String)
  | keyErrorNat (key : Nat)
  | indexError
  | typeError
  | valueError (msg : String)
  | transportError
  | unicodeDecodeError
  | jsonDecodeError
deriving DecidableEq

/-- Lowercase hex digit, as used by json.dumps in \uXXXX escapes. -/
def hexLowerDigit (n : Nat) : Char :=
  Char.ofNat (if n < 10 then 48 + n else 87 + n)

/-- Uppercase hex digit, as used by urllib.parse.quote in %XX escapes. -/
def hexUpperDigit (n : Nat) : Char :=
  Char.ofNat (if n < 10 then 48 + n else 55 + n)

/-- A \uXXXX escape for a code unit, lowercase hex (json.dumps style). -/
def u4 (n : Nat) : List Char :=
  ['\\', 'u', hexLowerDigit (n / 4096 % 16), hexLowerDigit (n / 256 % 16),
   hexLowerDigit (n / 16 % 16), hexLowerDigit (n % 16)]

/-- How json.dumps (ensure_ascii=True, the default) escapes one character
inside a string literal: backslash and double quote get a backslash escape,
the control characters get their shortcut or \uXXXX, printable ASCII is kept,
and everything above 0x7e becomes \uXXXX (a surrogate pair above 0xffff). -/
def escapeChar (c : Char) : List Char :=
  if c = '"' then ['\\', '"']
  else if c = '\\' then ['\\', '\\']
  else if c = Char.ofNat 8 then ['\\', 'b']
  else if c = Char.ofNat 9 then ['\\', 't']
  else if c = Char.ofNat 10 then ['\\', 'n']
  else if c = Char.ofNat 12 then ['\\', 'f']
  else if c = Char.ofNat 13 then ['\\', 'r']
  else if c.toNat < 32 then u4 c.toNat
  else if c.toNat < 127 then [c]
  else if c.toNat < 65536 then u4 c.toNat
  else
    u4 (55296 + (c.toNat - 65536) / 1024) ++ u4 (56320 + (c.toNat - 65536) % 1024)

/-- A JSON string literal as json.dumps renders it. -/
def encodeJsonString (s : String) : String :=
  "\"" ++ String.mk (s.data.flatMap escapeChar) ++ "\""

/-- Rendering of a JSON number.  The requests this notebook serializes
contain only strings and nested objects, so json.dumps never reaches a
number while building the request body; the integral case below matches the
Python repr of an integral float (150.0 prints as "150.0"), which is the
only shape appearing in this development. -/
def dumpNum (q : ℚ) : String :=
  if q.den = 1 then toString q.num ++ ".0"
  else toString q.num ++ "/" ++ toString q.den

mutual

/-- json.dumps with its default separators: items joined by ", ", keys and
values joined by ": ". -/
def dumps : JValue → String
  | .jnull => "null"
  | .jbool true => "true"
  | .jbool false => "false"
  | .jnum q => dumpNum q
  | .jstr s => encodeJsonString s
  | .jarr xs => "[" ++ dumpsElems xs ++ "]"
  | .jobj ms => "\x7b" ++ dumpsMembers ms ++ "\x7d"

/-- Array elements joined by the default ", " item separator. -/
def dumpsElems : List JValue → String
  | [] => ""
  | [x] => dumps x
  | x :: xs => dumps x ++ ", " ++ dumpsElems xs

/-- Object members joined by ", ", each key and value joined by ": ". -/
def dumpsMembers : List (String × JValue) → String
  | [] => ""
  | [(k, v)] => encodeJsonString k ++ ": " ++ dumps v
  | (k, v) :: ms => encodeJsonString k ++ ": " ++ dumps v ++ ", " ++ dumpsMembers ms

end

/-- UTF-8 encoding of one character as a byte list. -/
def utf8Encode (c : Char) : List Nat :=
  let n := c.toNat
  if n < 128 then [n]
  else if n < 2048 then [192 + n / 64, 128 + n % 64]
  else if n < 65536 then [224 + n / 4096, 128 + n / 64 % 64, 128 + n % 64]
  else [240 + n / 262144, 128 + n / 4096 % 64, 128 + n / 64 % 64, 128 + n % 64]

/-- The bytes urllib.parse.quote leaves unescaped with its default
safe="/": ASCII letters, digits, underscore, period, hyphen, tilde, and the
slash. -/
def safeByte (b : Nat) : Bool :=
  (48 ≤ b && b ≤ 57) || (65 ≤ b && b ≤ 90) || (97 ≤ b && b ≤ 122) ||
    b == 95 || b == 46 || b == 45 || b == 126 || b == 47

/-- One byte as urllib.parse.quote renders it: kept if safe, otherwise a
percent escape with uppercase hex. -/
def quoteByte (b : Nat) : List Char :=
  if safeByte b then [Char.ofNat b]
  else ['%', hexUpperDigit (b / 16), hexUpperDigit (b % 16)]

/-- urllib.parse.quote with its default safe="/": UTF-8-encode the string
and percent-escape every unsafe byte. -/
def quote (s : String) : String :=
  String.mk ((s.data.flatMap utf8Encode).flatMap quoteByte)

/-- Value of one hex digit character, either case, as urllib and json
accept them. -/
def hexVal (c : Char) : Option Nat :=
  if 48 ≤ c.toNat ∧ c.toNat ≤ 57 then some (c.toNat - 48)
  else if 97 ≤ c.toNat ∧ c.toNat ≤ 102 then some (c.toNat - 87)
  else if 65 ≤ c.toNat ∧ c.toNat ≤ 70 then some (c.toNat - 55)
  else none

/-- Undo the percent escapes of a quoted string, yielding the byte list;
none on a truncated or non-hex escape (the inputs this development decodes
are outputs of quote, which never produces those). -/
def unquoteBytes : List Char → Option (List Nat)
  | [] => some []
  | '%' :: a :: b :: rest =>
    match hexVal a, hexVal b, unquoteBytes rest with
    | some ha, some hb, some bs => some ((16 * ha + hb) :: bs)
    | _, _, _ => none
  | '%' :: _ => none
  | c :: rest =>
    match unquoteBytes rest with
    | some bs => some (utf8Encode c ++ bs)
    | none => none

/-- Is b a UTF-8 continuation byte. -/
def contByte (b : Nat) : Bool := 128 ≤ b && b < 192

/-- UTF-8 decoding of a byte list; none on a malformed sequence or an
invalid code point, as bytes.decode("utf-8") raises there. -/
def utf8Decode : List Nat → Option (List Char)
  | [] => some []
  | b1 :: rest =>
    if b1 < 128 then
      match utf8Decode rest with
      | some cs => some (Char.ofNat b1 :: cs)
      | none => none
    else if b1 < 192 then none
    else if b1 < 224 then
      match rest with
      | b2 :: rest2 =>
        if contByte b2 then
          let n := (b1 - 192) * 64 + (b2 - 128)
          if 128 ≤ n then
            match utf8Decode rest2 with
            | some cs => some (Char.ofNat n :: cs)
            | none => none
          else none
        else none
      | [] => none
    else if b1 < 240 then
      match rest with
      | b2 :: b3 :: rest3 =>
        if contByte b2 && contByte b3 then
          let n := (b1 - 224) * 4096 + (b2 - 128) * 64 + (b3 - 128)
          if 2048 ≤ n ∧ (n < 55296 ∨ 57344 ≤ n) then
            match utf8Decode rest3 with
            | some cs => some (Char.ofNat n :: cs)
            | none => none
          else none
        else none
      | _ => none
    else if b1 < 248 then
      match rest with
      | b2 :: b3 :: b4 :: rest4 =>
        if contByte b2 && contByte b3 && contByte b4 then
          let n := (b1 - 240) * 262144 + (b2 - 128) * 4096 + (b3 - 128) * 64 + (b4 - 128)
          if 65536 ≤ n ∧ n ≤ 1114111 then
            match utf8Decode rest4 with
            | some cs => some (Char.ofNat n :: cs)
            | none => none
          else none
        else none
      | _ => none
    else none

/-- urllib.parse.unquote restricted to well-formed input: undo the percent
escapes and UTF-8-decode the resulting bytes. -/
def unquote (s : String) : Option String :=
  match unquoteBytes s.data with
  | some bs =>
    match utf8Decode bs with
    | some cs => some (String.mk cs)
    | none => none
  | none => none

/-- A Python subscript: either a string key or a nonnegative integer index
(the notebook only ever subscripts with string literals and with 0). -/
inductive PyKey where
  | str (s : String)
  | nat (n : Nat)
deriving DecidableEq

/-- First-match lookup in an ordered member list; json.loads builds member
lists with distinct keys (a repeated key overwrites in place), so this is
exactly the Python dict lookup on every decoded object. -/
def lookupField : List (String × JValue) → String → Option JValue
  | [], _ => none
  | (k, v) :: ms, s => if k = s then some v else lookupField ms s

/-- Python subscripting v[k] on a decoded JSON value: dict lookup raises
KeyError on a missing key and on a non-string key; list indexing raises
IndexError out of range and TypeError on a string key; string indexing
yields a one-character string; everything else is unsubscriptable and
raises TypeError. -/
def getItem : JValue → PyKey → Except PyError JValue
  | .jobj ms, .str s =>
    match lookupField ms s with
    | some v => .ok v
    | none => .error (.keyError s)
  | .jobj _, .nat n => .error (.keyErrorNat n)
  | .jarr xs, .nat n =>
    match xs[n]? with
    | some v => .ok v
    | none => .error .indexError
  | .jarr _, .str _ => .error .typeError
  | .jstr s, .nat n =>
    match s.data[n]? with
    | some c => .ok (.jstr (String.singleton c))
    | none => .error .indexError
  | .jstr _, .str _ => .error .typeError
  | _, _ => .error .typeError

/-- The four characters json.loads skips as whitespace. -/
def jsonWs (c : Char) : Bool :=
  c == ' ' || c == Char.ofNat 9 || c == Char.ofNat 10 || c == Char.ofNat 13

/-- Drop leading JSON whitespace. -/
def skipWs : List Char → List Char
  | [] => []
  | c :: cs => if jsonWs c then skipWs cs else c :: cs

/-- Split off the maximal run of leading decimal digits. -/
def takeDigits : List Char → List Char × List Char
  | [] => ([], [])
  | c :: cs =>
    if c.isDigit then
      let p := takeDigits cs
      (c :: p.1, p.2)
    else ([], c :: cs)

/-- Numeric value of a digit run. -/
def digitsToNat (ds : List Char) : Nat :=
  ds.foldl (fun acc c => 10 * acc + (c.toNat - 48)) 0

/-- Euclid with explicit fuel, so that parsed numbers evaluate by plain
definitional unfolding (the kernel does not unfold the well-founded
recursion behind Nat.gcd); any fuel at least the first operand is enough. -/
def gcdFuel : Nat → Nat → Nat → Nat
  | 0, _, n => n
  | _ + 1, 0, n => n
  | fuel + 1, m + 1, n => gcdFuel fuel (n % (m + 1)) (m + 1)

theorem gcdFuel_eq_gcd : ∀ (fuel m n : Nat), m ≤ fuel → gcdFuel fuel m n = Nat.gcd m n := by
  intro fuel
  induction fuel with
  | zero =>
    intro m n h
    obtain rfl : m = 0 := Nat.le_zero.mp h
    simp [gcdFuel]
  | succ fuel ih =>
    intro m n h
    cases m with
    | zero => simp [gcdFuel]
    | succ m =>
      have hlt : n % (m + 1) ≤ fuel :=
        Nat.le_trans (Nat.le_of_lt_succ (Nat.mod_lt n (Nat.succ_pos m)))
          (Nat.le_of_succ_le_succ h)
      rw [show gcdFuel (fuel + 1) (m + 1) n = gcdFuel fuel (n % (m + 1)) (m + 1) from rfl]
      rw [ih _ _ hlt]
      exact (Nat.gcd_rec (m + 1) n).symm

/-- The integer n as a rational, built directly in lowest terms. -/
def ratOfInt (n : ℤ) : ℚ :=
  Rat.mk' n 1 one_ne_zero (Nat.coprime_one_right _)

/-- The rational num / den with den ≠ 0, reduced with the fueled gcd and
assembled with the Rat constructor, so that it evaluates by definitional
unfolding; den = 0 never arises below (the denominator is a power of ten)
and is mapped to 0. -/
def ratOfFrac (num : ℤ) (den : ℕ) : ℚ :=
  if hden : den = 0 then 0
  else
    have hg : gcdFuel num.natAbs num.natAbs den = Nat.gcd num.natAbs den :=
      gcdFuel_eq_gcd _ _ _ (Nat.le_refl _)
    have hgpos : 0 < gcdFuel num.natAbs num.natAbs den := by
      rw [hg]
      exact Nat.gcd_pos_of_pos_right _ (Nat.pos_of_ne_zero hden)
    have hdvd : gcdFuel num.natAbs num.natAbs den ∣ den := by
      rw [hg]
      exact Nat.gcd_dvd_right _ _
    have hd2 : den / gcdFuel num.natAbs num.natAbs den ≠ 0 :=
      Nat.ne_of_gt (Nat.div_pos (Nat.le_of_dvd (Nat.pos_of_ne_zero hden) hdvd) hgpos)
    have hco : Nat.Coprime (num.natAbs / gcdFuel num.natAbs num.natAbs den)
        (den / gcdFuel num.natAbs num.natAbs den) := by
      rw [hg]
      exact Nat.coprime_div_gcd_div_gcd (hg ▸ hgpos)
    have habs : ∀ m : ℕ, (if num < 0 then -(m : ℤ) else (m : ℤ)).natAbs = m := by
      intro m
      by_cases hneg : num < 0 <;> simp [hneg]
    Rat.mk'
      (if num < 0 then -((num.natAbs / gcdFuel num.natAbs num.natAbs den : ℕ) : ℤ)
       else ((num.natAbs / gcdFuel num.natAbs num.natAbs den : ℕ) : ℤ))
      (den / gcdFuel num.natAbs num.natAbs den)
      hd2 (by rw [habs]; exact hco)

/-- The JSON number grammar exactly as the json module matches it
(-?(0|[1-9][0-9]*)(\.[0-9]+)?([eE][+-]?[0-9]+)?), read off the front of the
input; the match is maximal, and a head that does not start a number fails.
The non-finite literals NaN, Infinity and -Infinity that the json module
also accepts have no rational counterpart and are modelled as decode
failures; no claim involves them.  The numeric value is represented exactly
(the notebook only passes the numbers through, so the double rounding that
Python applies on top is never observable in the claims). -/
def parseNumber (cs : List Char) : Except PyError (ℚ × List Char) :=
  let (neg, cs1) :=
    match cs with
    | '-' :: rest => (true, rest)
    | _ => (false, cs)
  match cs1 with
  | [] => .error .jsonDecodeError
  | c :: rest =>
    if ¬ c.isDigit then .error .jsonDecodeError
    else
      let (intDigits, cs2) :=
        if c = '0' then ([c], rest)
        else
          let p := takeDigits rest
          (c :: p.1, p.2)
      let (fracDigits, cs3) :=
        match cs2 with
        | '.' :: r =>
          let p := takeDigits r
          if p.1 = [] then ([], cs2) else (p.1, p.2)
        | _ => ([], cs2)
      let (expVal, cs4) :=
        match cs3 with
        | e :: r =>
          if e = 'e' ∨ e = 'E' then
            let (esign, r1) :=
              match r with
              | '+' :: r2 => ((1 : ℤ), r2)
              | '-' :: r2 => ((-1 : ℤ), r2)
              | _ => ((1 : ℤ), r)
            let p := takeDigits r1
            if p.1 = [] then ((0 : ℤ), cs3)
            else (esign * (digitsToNat p.1 : ℤ), p.2)
          else ((0 : ℤ), cs3)
        | [] => ((0 : ℤ), cs3)
      let mant : ℤ := digitsToNat (intDigits ++ fracDigits)
      let mant : ℤ := if neg then -mant else mant
      let scale : ℤ := expVal - fracDigits.length
      if 0 ≤ scale then .ok (ratOfInt (mant * ((10 ^ scale.toNat : ℕ) : ℤ)), cs4)
      else .ok (ratOfFrac mant (10 ^ (-scale).toNat), cs4)

/-- The body of a JSON string literal (everything after the opening quote),
following py_scanstring with strict=True: a raw control character is an
error, the eight shortcut escapes and \uXXXX are recognized, a high
surrogate escape followed by a low surrogate escape yields the astral
character.  A lone surrogate escape, which Python keeps as a surrogate code
unit, has no counterpart in a Lean string and is modelled as a decode
failure; no claim involves one.  The fuel argument only bounds recursion and
any value at least the input length is enough. -/
def parseStringBody : Nat → List Char → Except PyError (List Char × List Char)
  | 0, _ => .error .jsonDecodeError
  | _ + 1, [] => .error .jsonDecodeError
  | _ + 1, '"' :: rest => .ok ([], rest)
  | fuel + 1, '\\' :: rest =>
    match rest with
    | '"' :: r => (parseStringBody fuel r).map (fun p => ('"' :: p.1, p.2))
    | '\\' :: r => (parseStringBody fuel r).map (fun p => ('\\' :: p.1, p.2))
    | '/' :: r => (parseStringBody fuel r).map (fun p => ('/' :: p.1, p.2))
    | 'b' :: r => (parseStringBody fuel r).map (fun p => (Char.ofNat 8 :: p.1, p.2))
    | 'f' :: r => (parseStringBody fuel r).map (fun p => (Char.ofNat 12 :: p.1, p.2))
    | 'n' :: r => (parseStringBody fuel r).map (fun p => (Char.ofNat 10 :: p.1, p.2))
    | 'r' :: r => (parseStringBody fuel r).map (fun p => (Char.ofNat 13 :: p.1, p.2))
    | 't' :: r => (parseStringBody fuel r).map (fun p => (Char.ofNat 9 :: p.1, p.2))
    | 'u' :: h1 :: h2 :: h3 :: h4 :: r =>
      (match hexVal h1, hexVal h2, hexVal h3, hexVal h4 with
       | some a, some b, some c, some d =>
         let n := 4096 * a + 256 * b + 16 * c + d
         if n < 55296 ∨ 57344 ≤ n then
           (parseStringBody fuel r).map (fun p => (Char.ofNat n :: p.1, p.2))
         else if n < 56320 then
           match r with
           | '\\' :: 'u' :: g1 :: g2 :: g3 :: g4 :: r2 =>
             (match hexVal g1, hexVal g2, hexVal g3, hexVal g4 with
              | some a2, some b2, some c2, some d2 =>
                let m := 4096 * a2 + 256 * b2 + 16 * c2 + d2
                if 56320 ≤ m ∧ m < 57344 then
                  (parseStringBody fuel r2).map
                    (fun p => (Char.ofNat (65536 + (n - 55296) * 1024 + (m - 56320)) :: p.1, p.2))
                else .error .jsonDecodeError
              | _, _, _, _ => .error .jsonDecodeError)
           | _ => .error .jsonDecodeError
         else .error .jsonDecodeError
       | _, _, _, _ => .error .jsonDecodeError)
    | _ => .error .jsonDecodeError
  | fuel + 1, c :: rest =>
    if c.toNat < 32 then .error .jsonDecodeError
    else (parseStringBody fuel rest).map (fun p => (c :: p.1, p.2))

/-- Install a member into an object under construction: a repeated key
overwrites the earlier value in place, as assignment into a Python dict
does, so decoded objects never carry duplicate keys. -/
def objInsert : List (String × JValue) → String → JValue → List (String × JValue)
  | [], k, v => [(k, v)]
  | (k0, v0) :: ms, k, v =>
    if k0 = k then (k0, v) :: ms else (k0, v0) :: objInsert ms k v

/-- Which production the recursive-descent scanner of the json module is
currently in: a value; the inside of an object right after its opening brace
(either an immediate closing brace or the first member); a run of members
separated by commas, carrying the object built so far; and the two
corresponding array states. -/
inductive ParseMode where
  | value
  | membersFirst
  | members (acc : List (String × JValue))
  | elemsFirst
  | elems (acc : List JValue)

/-- One production of the pure Python scanner of the json module, read off
the front of the input: in value mode an object, an array, a string, one of
the literals true/false/null, or a number.  The fuel argument only bounds
recursion depth (every two consecutive recursive calls consume at least one
character, so any fuel at least twice the input length is enough); a single
structurally recursive function is used so that the scanner evaluates by
definitional unfolding. -/
def parseJson : Nat → ParseMode → List Char → Except PyError (JValue × List Char)
  | 0, _, _ => .error .jsonDecodeError
  | fuel + 1, .value, cs =>
    match cs with
    | [] => .error .jsonDecodeError
    | c :: rest =>
      if c = '\x7b' then parseJson fuel .membersFirst (skipWs rest)
      else if c = '[' then parseJson fuel .elemsFirst (skipWs rest)
      else if c = '"' then
        (parseStringBody (rest.length + 1) rest).map (fun p => (.jstr (String.mk p.1), p.2))
      else if c = 't' then
        match rest with
        | 'r' :: 'u' :: 'e' :: r => .ok (.jbool true, r)
        | _ => .error .jsonDecodeError
      else if c = 'f' then
        match rest with
        | 'a' :: 'l' :: 's' :: 'e' :: r => .ok (.jbool false, r)
        | _ => .error .jsonDecodeError
      else if c = 'n' then
        match rest with
        | 'u' :: 'l' :: 'l' :: r => .ok (.jnull, r)
        | _ => .error .jsonDecodeError
      else (parseNumber (c :: rest)).map (fun p => (.jnum p.1, p.2))
  | fuel + 1, .membersFirst, cs =>
    (match cs with
     | [] => .error .jsonDecodeError
     | c :: rest =>
       if c = '\x7d' then .ok (.jobj [], rest)
       else parseJson fuel (.members []) (c :: rest))
  | fuel + 1, .members acc, cs =>
    (match cs with
     | '"' :: rest =>
       (match parseStringBody (rest.length + 1) rest with
        | .error e => .error e
        | .ok (key, cs1) =>
          match skipWs cs1 with
          | ':' :: cs2 =>
            (match parseJson fuel .value (skipWs cs2) with
             | .error e => .error e
             | .ok (v, cs3) =>
               let acc := objInsert acc (String.mk key) v
               match skipWs cs3 with
               | ',' :: cs4 => parseJson fuel (.members acc) (skipWs cs4)
               | '\x7d' :: cs4 => .ok (.jobj acc, cs4)
               | _ => .error .jsonDecodeError)
          | _ => .error .jsonDecodeError)
     | _ => .error .jsonDecodeError)
  | fuel + 1, .elemsFirst, cs =>
    (match cs with
     | [] => .error .jsonDecodeError
     | c :: rest =>
       if c = ']' then .ok (.jarr [], rest)
       else parseJson fuel (.elems []) (c :: rest))
  | fuel + 1, .elems acc, cs =>
    (match parseJson fuel .value cs with
     | .error e => .error e
     | .ok (v, cs1) =>
       match skipWs cs1 with
       | ',' :: cs2 => parseJson fuel (.elems (v :: acc)) (skipWs cs2)
       | ']' :: cs2 => .ok (.jarr (v :: acc).reverse, cs2)
       | _ => .error .jsonDecodeError)

/-- json.loads: skip leading whitespace, read one value, and require that
only whitespace remains (anything else is the Extra data error). -/
def json_loads (s : String) : Except PyError JValue :=
  match parseJson (2 * s.length + 2) .value (skipWs s.data) with
  | .error e => .error e
  | .ok (v, rest) =>
    if skipWs rest = [] then .ok v else .error .jsonDecodeError

/-- The HTTP request mastQuery builds: whether the connection is TLS
(http.client.HTTPSConnection), the host, the method, the path, the body and
the header list in the order the notebook writes them. -/
structure HttpRequest where
  secure : Bool
  host : String
  method : String
  path : String
  body : String
  reqHeaders : List (String × String)
deriving DecidableEq

/-- What the remote side does with one HTTP exchange: the send, the
response, the read or the UTF-8 decode can fail, or the exchange succeeds
with response headers and a decoded body.  Modelling the service as a
function from the request to one of these outcomes makes it a fixed,
deterministic collaborator, which is how the notebook treats it. -/
inductive TransportOutcome where
  | sendFail
  | respFail
  | readFail
  | decodeFail
  | ok (respHeaders : List (String × String)) (content : String)

/-- The remote service and network, as a fixed function of the request. -/
def Transport : Type := HttpRequest → TransportOutcome

/-- The externally visible network events of one call: the connection is
opened against a host, a request is sent over it, the connection is
closed. -/
inductive Event where
  | openConn (host : String)
  | sendRequest (r : HttpRequest)
  | closeConn
deriving DecidableEq

/-- Is the event the sending of a request. -/
def isSendEvent : Event → Bool
  | .sendRequest _ => true
  | _ => false

/-- The hardcoded server of mastQuery. -/
def mastServer : String := "mast.stsci.edu"

/-- The hardcoded API path of mastQuery. -/
def mastPath : String := "/api/v0/invoke"

/-- The header dictionary mastQuery builds, in source order; ver stands for
the ambient interpreter version string read from sys.version_info. -/
def mastHeaders (ver : String) : List (String × String) :=
  [("Content-type", "application/x-www-form-urlencoded"),
   ("Accept", "text/plain"),
   ("User-agent", "python-requests/" ++ ver)]

/-- The full request one call of mastQuery issues for a given payload: an
HTTPS POST to the fixed host and path whose body is the literal prefix
"request=" followed by the URL-encoded json.dumps of the payload. -/
def mastRequestOf (ver : String) (request : JValue) : HttpRequest :=
  ⟨true, mastServer, "POST", mastPath,
   "request=" ++ quote (dumps request), mastHeaders ver⟩

/-- Everything one call of mastQuery leaves behind: the network events in
order, the returned pair of response headers and body (or the propagated
error), and the value of the caller's request dictionary when the call
ends (the body never assigns into it, so this is the argument itself). -/
structure MastCall where
  events : List Event
  result : Except PyError (List (String × String) × String)
  requestAfter : JValue

/-- mastQuery, statement by statement: build the headers, serialize and
URL-encode the request, open the HTTPS connection, send the POST, then get
the response, read it and decode it as UTF-8, close the connection and
return (headers, content).  The close only runs after a successful read and
decode: when the send, the response, the read or the decode raises, the
error propagates immediately and no close event is emitted, exactly as the
straight-line Python (which has no try/finally around the connection)
behaves. -/
def mastQuery (t : Transport) (ver : String) (request : JValue) : MastCall :=
  let req := mastRequestOf ver request
  let opened := [Event.openConn mastServer, Event.sendRequest req]
  match t req with
  | .sendFail => ⟨opened, .error .transportError, request⟩
  | .respFail => ⟨opened, .error .transportError, request⟩
  | .readFail => ⟨opened, .error .transportError, request⟩
  | .decodeFail => ⟨opened, .error .unicodeDecodeError, request⟩
  | .ok respHeaders content =>
    ⟨opened ++ [Event.closeConn], .ok (respHeaders, content), request⟩

/-- The resolver request resolve builds for a name: the Mast.Name.Lookup
service with the name embedded unmodified and the constant json format
selector. -/
def resolverRequest (name : String) : JValue :=
  .jobj [("service", .jstr "Mast.Name.Lookup"),
         ("params", .jobj [("input", .jstr name), ("format", .jstr "json")])]

/-- The body of the try block of resolve: the two statements
objRa = resolvedObject[resolvedCoordinate][0][ra] and
objDec = resolvedObject[resolvedCoordinate][0][decl], evaluated in order
with the subscript chain of the second statement re-evaluated from the
start, as Python does. -/
def tryExtract (resolvedObject : JValue) : Except PyError (JValue × JValue) :=
  match getItem resolvedObject (.str "resolvedCoordinate") with
  | .error e => .error e
  | .ok c1 =>
    match getItem c1 (.nat 0) with
    | .error e => .error e
    | .ok e1 =>
      match getItem e1 (.str "ra") with
      | .error e => .error e
      | .ok objRa =>
        match getItem resolvedObject (.str "resolvedCoordinate") with
        | .error e => .error e
        | .ok c2 =>
          match getItem c2 (.nat 0) with
          | .error e => .error e
          | .ok e2 =>
            match getItem e2 (.str "decl") with
            | .error e => .error e
            | .ok objDec => .ok (objRa, objDec)

/-- The try/except of resolve: an IndexError raised inside the block is
converted into ValueError("Unknown object ...") carrying the requested name;
every other exception, and a successful pair, passes through unchanged. -/
def extractCoordinate (name : String) (resolvedObject : JValue) :
    Except PyError (JValue × JValue) :=
  match tryExtract resolvedObject with
  | .error .indexError =>
    .error (.valueError ("Unknown object \x27" ++ name ++ "\x27"))
  | r => r

/-- resolve: build the resolver request, run mastQuery, json.loads the
returned body, and extract the coordinate pair, with the events of the
underlying call carried along. -/
def resolve (t : Transport) (ver : String) (name : String) :
    List Event × Except PyError (JValue × JValue) :=
  let call := mastQuery t ver (resolverRequest name)
  match call.result with
  | .error e => (call.events, .error e)
  | .ok (_, content) =>
    match json_loads content with
    | .error e => (call.events, .error e)
    | .ok resolvedObject => (call.events, extractCoordinate name resolvedObject)

/-- A successive-calls harness: run resolve with an already accumulated
event log, appending the new events.  The log is the only ambient state the
calls touch, so independence of the result from it is exactly the absence of
accumulated local state between calls. -/
def resolveFrom (t : Transport) (ver : String) (log : List Event) (name : String) :
    List Event × Except PyError (JValue × JValue) :=
  let r := resolve t ver name
  (log ++ r.1, r.2)

/-- A stub service answering every request with a fixed body. -/
def stubTransport (content : String) : Transport :=
  fun _ => .ok [] content

/-- Stub returning a resolvedCoordinate array that is empty. -/
def stubEmpty : Transport :=
  stubTransport "\x7b\"resolvedCoordinate\":[]\x7d"

/-- Stub resolving every name to ra 150.0, decl 65.0. -/
def stubKQ : Transport :=
  stubTransport "\x7b\"resolvedCoordinate\":[\x7b\"ra\":150.0,\"decl\":65.0\x7d]\x7d"

/-- Stub answering with an out-of-range right ascension of 400 degrees. -/
def stubOutOfRange : Transport :=
  stubTransport "\x7b\"resolvedCoordinate\":[\x7b\"ra\":400.0,\"decl\":65.0\x7d]\x7d"

/-- Stub whose resolvedCoordinate first entry lacks the ra field. -/
def stubNoRa : Transport :=
  stubTransport "\x7b\"resolvedCoordinate\":[\x7b\"decl\":65.0\x7d]\x7d"

/-- Stub whose response lacks the resolvedCoordinate key entirely. -/
def stubNoKey : Transport :=
  stubTransport "\x7b\"status\":\"COMPLETE\"\x7d"

/-- Stub on which the read of the response body fails. -/
def stubReadFail : Transport :=
  fun _ => .readFail

/-- Substring test on character lists, used to state which byte sequences
the serialized request body does and does not embed. -/
def containsSub (hay pat : List Char) : Bool :=
  match hay with
  | [] => pat.isEmpty
  | _ :: tl => pat.isPrefixOf hay || containsSub tl pat

/-- Does the pair look like an in-range celestial coordinate: both
components numeric, right ascension in [0, 360) degrees and declination in
[-90, 90] degrees. -/
def coordInRange : JValue × JValue → Prop
  | (.jnum ra, .jnum de) => 0 ≤ ra ∧ ra < 360 ∧ -90 ≤ de ∧ de ≤ 90
  | _ => False

theorem resolve_fst (t : Transport) (ver name : String) :
    (resolve t ver name).1 = (mastQuery t ver (resolverRequest name)).events := by
  cases hm : (mastQuery t ver (resolverRequest name)).result with
  | error e => simp [resolve, hm]
  | ok pr =>
    obtain ⟨hs, content⟩ := pr
    cases hj : json_loads content with
    | error e => simp [resolve, hm, hj]
    | ok obj => simp [resolve, hm, hj]

theorem resolve_snd_decoded (t : Transport) (ver name : String)
    (hs : List (String × String)) (content : String) (obj : JValue)
    (ht : t (mastRequestOf ver (resolverRequest name)) = .ok hs content)
    (hdec : json_loads content = .ok obj) :
    (resolve t ver name).2 = extractCoordinate name obj := by
  simp [resolve, mastQuery, ht, hdec]

theorem mastQuery_result_ok (t : Transport) (ver : String) (request : JValue)
    (hs : List (String × String)) (content : String)
    (ht : t (mastRequestOf ver request) = .ok hs content) :
    (mastQuery t ver request).result = .ok (hs, content) := by
  simp [mastQuery, ht]

theorem mastQuery_filter_send (t : Transport) (ver : String) (request : JValue) :
    (mastQuery t ver request).events.filter isSendEvent
      = [.sendRequest (mastRequestOf ver request)] := by
  cases h : t (mastRequestOf ver request) <;> simp [mastQuery, h, isSendEvent]

theorem mastQuery_count_open (t : Transport) (ver : String) (request : JValue) :
    (mastQuery t ver request).events.count (.openConn mastServer) = 1 := by
  cases h : t (mastRequestOf ver request) <;>
    simp [mastQuery, h, List.count_cons, List.count_nil]

theorem mastQuery_head (t : Transport) (ver : String) (request : JValue) :
    (mastQuery t ver request).events.head? = some (.openConn mastServer) := by
  cases h : t (mastRequestOf ver request) <;> simp [mastQuery, h]

theorem mastQuery_events_of_ok (t : Transport) (ver : String) (request : JValue)
    (p : List (String × String) × String)
    (h : (mastQuery t ver request).result = .ok p) :
    (mastQuery t ver request).events
      = [.openConn mastServer, .sendRequest (mastRequestOf ver request), .closeConn] := by
  cases h2 : t (mastRequestOf ver request) <;> simp [mastQuery, h2] at h ⊢

theorem mastQuery_no_close_of_error (t : Transport) (ver : String) (request : JValue)
    (e : PyError) (h : (mastQuery t ver request).result = .error e) :
    Event.closeConn ∉ (mastQuery t ver request).events := by
  cases h2 : t (mastRequestOf ver request) <;> simp [mastQuery, h2] at h ⊢

theorem mastQuery_requestAfter (t : Transport) (ver : String) (request : JValue) :
    (mastQuery t ver request).requestAfter = request := by
  cases h : t (mastRequestOf ver request) <;> simp [mastQuery, h]

theorem getItem_obj (ms : List (String × JValue)) (s : String) (v : JValue)
    (h : lookupField ms s = some v) : getItem (.jobj ms) (.str s) = .ok v := by
  simp [getItem, h]

theorem getItem_obj_none (ms : List (String × JValue)) (s : String)
    (h : lookupField ms s = none) :
    getItem (.jobj ms) (.str s) = .error (.keyError s) := by
  simp [getItem, h]

theorem getItem_cons_zero (x : JValue) (rest : List JValue) :
    getItem (.jarr (x :: rest)) (.nat 0) = .ok x := by
  simp [getItem]

theorem getItem_nil_zero : getItem (.jarr []) (.nat 0) = .error .indexError := by
  simp [getItem]

theorem tryExtract_ok_shape (obj : JValue) (p : JValue × JValue)
    (h : tryExtract obj = .ok p) :
    ∃ ms l, obj = .jobj ms ∧ lookupField ms "resolvedCoordinate" = some (.jarr l)
      ∧ l ≠ [] := by
  cases obj with
  | jobj ms =>
    cases hlook : lookupField ms "resolvedCoordinate" with
    | none => simp [tryExtract, getItem, hlook] at h
    | some c1 =>
      cases c1 with
      | jarr xs =>
        cases xs with
        | nil => simp [tryExtract, getItem, hlook] at h
        | cons x xs => exact ⟨ms, x :: xs, rfl, hlook, by simp⟩
      | jstr s =>
        cases hg : s.data[0]? <;>
          simp [tryExtract, getItem, hlook, hg] at h
      | jnull => simp [tryExtract, getItem, hlook] at h
      | jbool b => simp [tryExtract, getItem, hlook] at h
      | jnum q => simp [tryExtract, getItem, hlook] at h
      | jobj ms2 => simp [tryExtract, getItem, hlook] at h
  | jnull => simp [tryExtract, getItem] at h
  | jbool b => simp [tryExtract, getItem] at h
  | jnum q => simp [tryExtract, getItem] at h
  | jstr s => simp [tryExtract, getItem] at h
  | jarr xs => simp [tryExtract, getItem] at h

theorem tryExtract_empty (ms : List (String × JValue))
    (h : lookupField ms "resolvedCoordinate" = some (.jarr [])) :
    tryExtract (.jobj ms) = .error .indexError := by
  simp [tryExtract, getItem_obj _ _ _ h, getItem_nil_zero]

theorem tryExtract_missing (ms : List (String × JValue))
    (h : lookupField ms "resolvedCoordinate" = none) :
    tryExtract (.jobj ms) = .error (.keyError "resolvedCoordinate") := by
  simp [tryExtract, getItem_obj_none _ _ h]

theorem tryExtract_first (ms : List (String × JValue)) (first : JValue)
    (rest : List JValue) (ra de : JValue)
    (h : lookupField ms "resolvedCoordinate" = some (.jarr (first :: rest)))
    (hra : getItem first (.str "ra") = .ok ra)
    (hde : getItem first (.str "decl") = .ok de) :
    tryExtract (.jobj ms) = .ok (ra, de) := by
  simp [tryExtract, getItem_obj _ _ _ h, getItem_cons_zero, hra, hde]

theorem tryExtract_no_ra (ms : List (String × JValue)) (efs : List (String × JValue))
    (rest : List JValue)
    (h : lookupField ms "resolvedCoordinate" = some (.jarr (.jobj efs :: rest)))
    (hra : lookupField efs "ra" = none) :
    tryExtract (.jobj ms) = .error (.keyError "ra") := by
  simp [tryExtract, getItem_obj _ _ _ h, getItem_cons_zero, getItem_obj_none _ _ hra]

theorem tryExtract_no_decl (ms : List (String × JValue)) (efs : List (String × JValue))
    (rest : List JValue) (ra : JValue)
    (h : lookupField ms "resolvedCoordinate" = some (.jarr (.jobj efs :: rest)))
    (hra : lookupField efs "ra" = some ra)
    (hde : lookupField efs "decl" = none) :
    tryExtract (.jobj ms) = .error (.keyError "decl") := by
  simp [tryExtract, getItem_obj _ _ _ h, getItem_cons_zero, getItem_obj _ _ _ hra,
    getItem_obj_none _ _ hde]

theorem extractCoordinate_of_tryExtract_ok (name : String) (obj : JValue)
    (p : JValue × JValue) (h : tryExtract obj = .ok p) :
    extractCoordinate name obj = .ok p := by
  simp [extractCoordinate, h]

theorem extractCoordinate_ok_shape (name : String) (obj : JValue)
    (p : JValue × JValue) (h : extractCoordinate name obj = .ok p) :
    tryExtract obj = .ok p := by
  unfold extractCoordinate at h
  cases htr : tryExtract obj with
  | ok q => simp [htr] at h; simp [h]
  | error e => cases e <;> simp [htr] at h

/-- C1: for every name, if the JSON-decoded remote response is an object
whose resolvedCoordinate field is an empty array, then resolve fails with
the Unknown object ValueError carrying exactly the requested input name. -/
theorem claim_C1 (t : Transport) (ver name : String)
    (hs : List (String × String)) (content : String) (ms : List (String × JValue))
    (ht : t (mastRequestOf ver (resolverRequest name)) = .ok hs content)
    (hdec : json_loads content = .ok (.jobj ms))
    (hempty : lookupField ms "resolvedCoordinate" = some (.jarr [])) :
    (resolve t ver name).2 =
      .error (.valueError ("Unknown object \x27" ++ name ++ "\x27")) := by
  rw [resolve_snd_decoded t ver name hs content _ ht hdec]
  simp [extractCoordinate, tryExtract_empty ms hempty]

/-- C1 witness: the stub service answering with an empty resolvedCoordinate
array makes resolve of "Nonexistent Object" fail with the Unknown object
error naming that input. -/
theorem claim_C1_witness :
    (resolve stubEmpty "3.8.0" "Nonexistent Object").2 =
      .error (.valueError "Unknown object \x27Nonexistent Object\x27") :=
  claim_C1 stubEmpty "3.8.0" "Nonexistent Object" []
    "\x7b\"resolvedCoordinate\":[]\x7d" [("resolvedCoordinate", .jarr [])]
    rfl rfl rfl

/-- C2: for every name, if the JSON-decoded remote response has a non-empty
resolvedCoordinate array, resolve returns exactly the pair of the ra and
decl fields of the first element of that array. -/
theorem claim_C2 (t : Transport) (ver name : String)
    (hs : List (String × String)) (content : String) (ms : List (String × JValue))
    (first : JValue) (rest : List JValue) (ra de : JValue)
    (ht : t (mastRequestOf ver (resolverRequest name)) = .ok hs content)
    (hdec : json_loads content = .ok (.jobj ms))
    (hrc : lookupField ms "resolvedCoordinate" = some (.jarr (first :: rest)))
    (hra : getItem first (.str "ra") = .ok ra)
    (hde : getItem first (.str "decl") = .ok de) :
    (resolve t ver name).2 = .ok (ra, de) := by
  rw [resolve_snd_decoded t ver name hs content _ ht hdec]
  exact extractCoordinate_of_tryExtract_ok name _ _
    (tryExtract_first ms first rest ra de hrc hra hde)

/-- C2 witness: against the stub answering with ra 150.0 and decl 65.0,
resolve of "KQ UMa" yields the coordinate pair (150.0, 65.0). -/
theorem claim_C2_witness :
    (resolve stubKQ "3.8.0" "KQ UMa").2 = .ok (.jnum 150, .jnum 65) :=
  claim_C2 stubKQ "3.8.0" "KQ UMa" []
    "\x7b\"resolvedCoordinate\":[\x7b\"ra\":150.0,\"decl\":65.0\x7d]\x7d"
    [("resolvedCoordinate", .jarr [.jobj [("ra", .jnum 150), ("decl", .jnum 65)]])]
    (.jobj [("ra", .jnum 150), ("decl", .jnum 65)]) [] (.jnum 150) (.jnum 65)
    rfl rfl rfl rfl rfl

/-- C3: resolve produces a coordinate pair only when the decoded response is
an object whose resolvedCoordinate field is a non-empty array (first
conjunct), and whenever that field is absent or the array is empty, no pair
is returned and a failure is signaled instead (second conjunct). -/
theorem claim_C3 :
    (∀ (t : Transport) (ver name : String) (p : JValue × JValue),
        (resolve t ver name).2 = .ok p →
        ∃ hs content ms l,
          t (mastRequestOf ver (resolverRequest name)) = .ok hs content ∧
          json_loads content = .ok (.jobj ms) ∧
          lookupField ms "resolvedCoordinate" = some (.jarr l) ∧ l ≠ []) ∧
    (∀ (t : Transport) (ver name : String) (hs : List (String × String))
        (content : String) (ms : List (String × JValue)),
        t (mastRequestOf ver (resolverRequest name)) = .ok hs content →
        json_loads content = .ok (.jobj ms) →
        (lookupField ms "resolvedCoordinate" = none ∨
          lookupField ms "resolvedCoordinate" = some (.jarr [])) →
        ∃ e, (resolve t ver name).2 = .error e) := by
  constructor
  · intro t ver name p h
    cases h2 : t (mastRequestOf ver (resolverRequest name)) with
    | sendFail => simp [resolve, mastQuery, h2] at h
    | respFail => simp [resolve, mastQuery, h2] at h
    | readFail => simp [resolve, mastQuery, h2] at h
    | decodeFail => simp [resolve, mastQuery, h2] at h
    | ok hs content =>
      cases hj : json_loads content with
      | error e => simp [resolve, mastQuery, h2, hj] at h
      | ok obj =>
        rw [resolve_snd_decoded t ver name hs content obj h2 hj] at h
        obtain ⟨ms, l, rfl, hlook, hne⟩ :=
          tryExtract_ok_shape obj p (extractCoordinate_ok_shape name obj p h)
        exact ⟨hs, content, ms, l, rfl, hj, hlook, hne⟩
  · intro t ver name hs content ms ht hdec hor
    rcases hor with h0 | h0
    · refine ⟨.keyError "resolvedCoordinate", ?_⟩
      rw [resolve_snd_decoded t ver name hs content _ ht hdec]
      simp [extractCoordinate, tryExtract_missing ms h0]
    · refine ⟨.valueError ("Unknown object \x27" ++ name ++ "\x27"), ?_⟩
      rw [resolve_snd_decoded t ver name hs content _ ht hdec]
      simp [extractCoordinate, tryExtract_empty ms h0]

/-- C3 witness: the first conjunct instantiated at the stub that resolves
"KQ UMa", the second at the stub answering with an empty array. -/
theorem claim_C3_witness :
    (∃ hs content ms l,
        stubKQ (mastRequestOf "3.8.0" (resolverRequest "KQ UMa")) = .ok hs content ∧
        json_loads content = .ok (.jobj ms) ∧
        lookupField ms "resolvedCoordinate" = some (.jarr l) ∧ l ≠ []) ∧
    (∃ e, (resolve stubEmpty "3.8.0" "Nonexistent Object").2 = .error e) :=
  ⟨claim_C3.1 stubKQ "3.8.0" "KQ UMa" (.jnum 150, .jnum 65) rfl,
   claim_C3.2 stubEmpty "3.8.0" "Nonexistent Object" []
     "\x7b\"resolvedCoordinate\":[]\x7d" [("resolvedCoordinate", .jarr [])]
     rfl rfl (Or.inr rfl)⟩

/-- C4 counterexample: the body mastQuery actually sends for the name
"KQ UMa" does not embed the byte sequences "input":"KQ UMa" or
"format":"json" verbatim: json.dumps separates keys from values with a
colon and a space, and the URL-encoding then percent-escapes the quotes,
braces, colons and spaces, so neither assignment survives verbatim in the
request body. -/
theorem claim_C4_counterexample :
    containsSub (mastRequestOf "3.8.0" (resolverRequest "KQ UMa")).body.data
        ("\"input\":\"KQ UMa\"".data) = false ∧
    containsSub (mastRequestOf "3.8.0" (resolverRequest "KQ UMa")).body.data
        ("\"format\":\"json\"".data) = false :=
  ⟨rfl, rfl⟩

/-- C4 (amended): request construction is a deterministic function of the
name alone; the body sent is the literal prefix "request=" followed by the
URL-encoding of json.dumps of the payload; undoing the URL-encoding
recovers the JSON text exactly, and that text embeds the assignments
"input": "KQ UMa" and "format": "json" verbatim up to the colon-space
separator that json.dumps inserts; and the constructed payload carries
params.input = "KQ UMa" and params.format = "json" exactly. -/
theorem claim_C4 :
    (∀ ver name : String,
        (mastRequestOf ver (resolverRequest name)).body
          = "request=" ++ quote (dumps (resolverRequest name))) ∧
    (∀ ver₁ ver₂ name : String,
        (mastRequestOf ver₁ (resolverRequest name)).body
          = (mastRequestOf ver₂ (resolverRequest name)).body) ∧
    unquote (quote (dumps (resolverRequest "KQ UMa")))
      = some (dumps (resolverRequest "KQ UMa")) ∧
    containsSub (dumps (resolverRequest "KQ UMa")).data
        ("\"input\": \"KQ UMa\"".data) = true ∧
    containsSub (dumps (resolverRequest "KQ UMa")).data
        ("\"format\": \"json\"".data) = true ∧
    (∀ name : String,
        getItem (resolverRequest name) (.str "params")
          = .ok (.jobj [("input", .jstr name), ("format", .jstr "json")])) :=
  ⟨fun _ _ => rfl, fun _ _ _ => rfl, rfl, rfl, rfl, fun _ => rfl⟩

/-- C5 counterexample: the code performs no range validation, so against a
service answering with a right ascension of 400 degrees, resolve succeeds
and returns a coordinate outside [0, 360) x [-90, 90]; the claimed range
property does not hold over every successful response. -/
theorem claim_C5_counterexample :
    (resolve stubOutOfRange "3.8.0" "KQ UMa").2 = .ok (.jnum 400, .jnum 65) ∧
      ¬ coordInRange (.jnum 400, .jnum 65) := by
  refine ⟨rfl, fun h => ?_⟩
  simp only [coordInRange] at h
  exact absurd h.2.1 (by norm_num)

/-- C5 (amended): resolve passes the service numbers through unchanged, so
whenever the first resolved entry carries ra in [0, 360) and decl in
[-90, 90], the returned coordinate is exactly that pair and lies in range
(the code itself neither checks nor normalizes the values). -/
theorem claim_C5 (t : Transport) (ver name : String)
    (hs : List (String × String)) (content : String) (ms : List (String × JValue))
    (efs : List (String × JValue)) (rest : List JValue) (ra de : ℚ)
    (ht : t (mastRequestOf ver (resolverRequest name)) = .ok hs content)
    (hdec : json_loads content = .ok (.jobj ms))
    (hrc : lookupField ms "resolvedCoordinate" = some (.jarr (.jobj efs :: rest)))
    (hra : lookupField efs "ra" = some (.jnum ra))
    (hde : lookupField efs "decl" = some (.jnum de))
    (h₁ : 0 ≤ ra) (h₂ : ra < 360) (h₃ : -90 ≤ de) (h₄ : de ≤ 90) :
    (resolve t ver name).2 = .ok (.jnum ra, .jnum de) ∧
      coordInRange (.jnum ra, .jnum de) := by
  constructor
  · rw [resolve_snd_decoded t ver name hs content _ ht hdec]
    exact extractCoordinate_of_tryExtract_ok name _ _
      (tryExtract_first ms _ rest _ _ hrc (getItem_obj _ _ _ hra) (getItem_obj _ _ _ hde))
  · exact ⟨h₁, h₂, h₃, h₄⟩

/-- C5 witness: at the stub answering ra 150.0, decl 65.0 the amended range
property holds concretely. -/
theorem claim_C5_witness :
    (resolve stubKQ "3.8.0" "KQ UMa").2 = .ok (.jnum (150 : ℚ), .jnum (65 : ℚ)) ∧
      coordInRange (.jnum (150 : ℚ), .jnum (65 : ℚ)) :=
  claim_C5 stubKQ "3.8.0" "KQ UMa" []
    "\x7b\"resolvedCoordinate\":[\x7b\"ra\":150.0,\"decl\":65.0\x7d]\x7d"
    [("resolvedCoordinate", .jarr [.jobj [("ra", .jnum 150), ("decl", .jnum 65)]])]
    [("ra", .jnum 150), ("decl", .jnum 65)] [] 150 65
    rfl rfl rfl rfl rfl (by decide) (by decide) (by decide) (by decide)

/-- C6: every invocation of mastQuery sends exactly one request; it is an
HTTPS POST to the fixed host mast.stsci.edu and the fixed path
/api/v0/invoke, carrying the Content-type form-urlencoded header, the
Accept text/plain header, and the python-requests User-agent client
identification. -/
theorem claim_C6 (t : Transport) (ver : String) (request : JValue) :
    (mastQuery t ver request).events.filter isSendEvent
        = [.sendRequest (mastRequestOf ver request)] ∧
    (mastRequestOf ver request).secure = true ∧
    (mastRequestOf ver request).host = "mast.stsci.edu" ∧
    (mastRequestOf ver request).method = "POST" ∧
    (mastRequestOf ver request).path = "/api/v0/invoke" ∧
    ("Content-type", "application/x-www-form-urlencoded")
        ∈ (mastRequestOf ver request).reqHeaders ∧
    ("Accept", "text/plain") ∈ (mastRequestOf ver request).reqHeaders ∧
    ("User-agent", "python-requests/" ++ ver) ∈ (mastRequestOf ver request).reqHeaders :=
  ⟨mastQuery_filter_send t ver request, rfl, rfl, rfl, rfl,
   by simp [mastRequestOf, mastHeaders],
   by simp [mastRequestOf, mastHeaders],
   by simp [mastRequestOf, mastHeaders]⟩

/-- C7: with the service a fixed function from requests to outcomes, a
second call of resolve right after a first one returns the same result; the
result does not depend on the accumulated event log at all; the second call
emits exactly the events of the first; and each call sends exactly the one
request determined by the name. -/
theorem claim_C7 (t : Transport) (ver : String) (log : List Event) (name : String) :
    (resolveFrom t ver ((resolveFrom t ver log name).1) name).2
        = (resolveFrom t ver log name).2 ∧
    (∀ log' : List Event,
        (resolveFrom t ver log' name).2 = (resolveFrom t ver log name).2) ∧
    ((resolveFrom t ver ((resolveFrom t ver log name).1) name).1.drop
          (resolveFrom t ver log name).1.length
        = (resolveFrom t ver log name).1.drop log.length) ∧
    (resolve t ver name).1.filter isSendEvent
        = [.sendRequest (mastRequestOf ver (resolverRequest name))] := by
  refine ⟨rfl, fun _ => rfl, ?_, ?_⟩
  · simp [resolveFrom]
  · rw [resolve_fst]
    exact mastQuery_filter_send t ver (resolverRequest name)

/-- C8 counterexample: when the read of the response fails, mastQuery
propagates the error with the connection opened but never closed: the event
trace holds the open and the send but no close, refuting a guaranteed close
on every exit path. -/
theorem claim_C8_counterexample :
    (mastQuery stubReadFail "3.8.0" (resolverRequest "KQ UMa")).events
        = [.openConn mastServer,
           .sendRequest (mastRequestOf "3.8.0" (resolverRequest "KQ UMa"))] ∧
    (mastQuery stubReadFail "3.8.0" (resolverRequest "KQ UMa")).result
        = .error .transportError ∧
    Event.closeConn ∉ (mastQuery stubReadFail "3.8.0" (resolverRequest "KQ UMa")).events := by
  refine ⟨rfl, rfl, ?_⟩
  intro hmem
  rw [show (mastQuery stubReadFail "3.8.0" (resolverRequest "KQ UMa")).events
      = [.openConn mastServer,
         .sendRequest (mastRequestOf "3.8.0" (resolverRequest "KQ UMa"))] from rfl] at hmem
  simp at hmem

/-- C8 (amended): every call opens exactly one fresh connection, as the
first event of the call; on the successful path the close happens before
the call returns; but on every failing path (send, response, read or decode
failure) the close is skipped and the error propagates with the connection
left open, since the straight-line code has no try/finally. -/
theorem claim_C8 (t : Transport) (ver : String) (request : JValue) :
    ((∃ p, (mastQuery t ver request).result = .ok p) →
        (mastQuery t ver request).events
          = [.openConn mastServer, .sendRequest (mastRequestOf ver request),
             .closeConn]) ∧
    ((∃ e, (mastQuery t ver request).result = .error e) →
        Event.closeConn ∉ (mastQuery t ver request).events) ∧
    (mastQuery t ver request).events.count (.openConn mastServer) = 1 ∧
    (mastQuery t ver request).events.head? = some (.openConn mastServer) := by
  refine ⟨?_, ?_, mastQuery_count_open t ver request, mastQuery_head t ver request⟩
  · rintro ⟨p, hp⟩
    exact mastQuery_events_of_ok t ver request p hp
  · rintro ⟨e, he⟩
    exact mastQuery_no_close_of_error t ver request e he

/-- C8 witness: on the successful stub the close event occurs within the
call, and on the read-failing stub it does not. -/
theorem claim_C8_witness :
    Event.closeConn ∈ (mastQuery stubKQ "3.8.0" (resolverRequest "KQ UMa")).events ∧
    Event.closeConn ∉ (mastQuery stubReadFail "3.8.0" (resolverRequest "KQ UMa")).events := by
  constructor
  · rw [(claim_C8 stubKQ "3.8.0" (resolverRequest "KQ UMa")).1 ⟨_, rfl⟩]
    simp
  · exact (claim_C8 stubReadFail "3.8.0" (resolverRequest "KQ UMa")).2.1
      ⟨.transportError, rfl⟩

/-- C9: only the out-of-range index becomes the Unknown object error: when
the decoded object lacks the resolvedCoordinate key, resolve propagates the
KeyError for that key; when the first resolved entry lacks ra, or has ra
but lacks decl, resolve propagates the corresponding KeyError; in each of
these malformed cases the result is never the Unknown object ValueError. -/
theorem claim_C9 (t : Transport) (ver name : String)
    (hs : List (String × String)) (content : String) (ms : List (String × JValue))
    (ht : t (mastRequestOf ver (resolverRequest name)) = .ok hs content)
    (hdec : json_loads content = .ok (.jobj ms)) :
    (lookupField ms "resolvedCoordinate" = none →
        (resolve t ver name).2 = .error (.keyError "resolvedCoordinate") ∧
        ∀ msg, (resolve t ver name).2 ≠ .error (.valueError msg)) ∧
    (∀ efs rest,
        lookupField ms "resolvedCoordinate" = some (.jarr (.jobj efs :: rest)) →
        lookupField efs "ra" = none →
        (resolve t ver name).2 = .error (.keyError "ra") ∧
        ∀ msg, (resolve t ver name).2 ≠ .error (.valueError msg)) ∧
    (∀ efs rest ra,
        lookupField ms "resolvedCoordinate" = some (.jarr (.jobj efs :: rest)) →
        lookupField efs "ra" = some ra → lookupField efs "decl" = none →
        (resolve t ver name).2 = .error (.keyError "decl") ∧
        ∀ msg, (resolve t ver name).2 ≠ .error (.valueError msg)) := by
  have base := resolve_snd_decoded t ver name hs content _ ht hdec
  refine ⟨fun h0 => ?_, fun efs rest h0 h1 => ?_, fun efs rest ra h0 h1 h2 => ?_⟩
  · rw [base]
    have hx := tryExtract_missing ms h0
    exact ⟨by simp [extractCoordinate, hx], fun msg => by simp [extractCoordinate, hx]⟩
  · rw [base]
    have hx := tryExtract_no_ra ms efs rest h0 h1
    exact ⟨by simp [extractCoordinate, hx], fun msg => by simp [extractCoordinate, hx]⟩
  · rw [base]
    have hx := tryExtract_no_decl ms efs rest ra h0 h1 h2
    exact ⟨by simp [extractCoordinate, hx], fun msg => by simp [extractCoordinate, hx]⟩

/-- C9 witness: against the stub lacking the resolvedCoordinate key resolve
propagates the KeyError for that key, and against the stub whose first
entry lacks ra it propagates the KeyError for ra; neither is the Unknown
object error. -/
theorem claim_C9_witness :
    (resolve stubNoKey "3.8.0" "X").2 = .error (.keyError "resolvedCoordinate") ∧
    (resolve stubNoRa "3.8.0" "X").2 = .error (.keyError "ra") :=
  ⟨((claim_C9 stubNoKey "3.8.0" "X" [] "\x7b\"status\":\"COMPLETE\"\x7d"
      [("status", .jstr "COMPLETE")] rfl rfl).1 rfl).1,
   ((claim_C9 stubNoRa "3.8.0" "X" []
      "\x7b\"resolvedCoordinate\":[\x7b\"decl\":65.0\x7d]\x7d"
      [("resolvedCoordinate", .jarr [.jobj [("decl", .jnum 65)]])] rfl rfl).2.1
      [("decl", .jnum 65)] [] rfl rfl).1⟩

/-- C10: mastQuery leaves its request argument exactly as it received it
(the body only serializes it into fresh strings); and the request resolve
constructs embeds the name unmodified: params.input is the very name
string, with no trimming or case folding, and the body is the URL-encoding
of the json.dumps of that payload. -/
theorem claim_C10 (t : Transport) (ver : String) (request : JValue) (name : String) :
    (mastQuery t ver request).requestAfter = request ∧
    getItem (resolverRequest name) (.str "params")
      = .ok (.jobj [("input", .jstr name), ("format", .jstr "json")]) ∧
    getItem (.jobj [("input", .jstr name), ("format", .jstr "json")]) (.str "input")
      = .ok (.jstr name) ∧
    (mastRequestOf ver (resolverRequest name)).body
      = "request=" ++ quote (dumps (resolverRequest name)) :=
  ⟨mastQuery_requestAfter t ver request, rfl, rfl, rfl⟩

end Mast
